import Mathlib

set_option maxHeartbeats 1000000

/-!
Shallow embedding of the stop resolution and arrival rendering pipeline of
the Madrid EMT Telegram bot (src/emtBot.js, 2018 revision, together with the
configuration constants of src/settings.js).

Conventions of the embedding:
* JavaScript promises are modelled by `PromiseOutcome`: a promise either
  resolves, rejects, or never settles (`pending`).  A `new P(executor)` whose
  executor neither resolves nor rejects on some path is `pending` on that path.
* The process wide stop cache (a plain JS object keyed by stop id) is modelled
  as an ordered association list `StopCache`; `Object.keys` is the list of
  first components in that order, indexing is the first matching entry.
* JS numbers that the code only ever treats as integers (busTimeLeft) are
  `Int`; geographic coordinates are `Rat`.
* External API calls (EMTAPI.getStopsFromLocation, getIncomingBusesToStop) are
  parameters of the functions that perform them, so every theorem quantifies
  over the behaviour of the upstream service.
-/

namespace EmtBus

-- SETTINGS (src/settings.js) --------------------------------------------------

/-- The configuration record read by emtBot.js from src/settings.js.
The checked in settings.js defines maxResults = 6, maxColumnWidth = 18 and
result_thumb.  It does not define searchRadius, although emtBot.js reads
settings.searchRadius when calling the stops near location API; the field is
kept here and every theorem is parametric in the whole record, so no concrete
radius value is assumed anywhere. -/
structure Settings where
  maxResults : Nat
  maxColumnWidth : Nat
  searchRadius : Nat
  result_thumb : String
  deriving DecidableEq, Repr

/-- The concrete values of src/settings.js.  searchRadius is absent from that
file (undefined at runtime); the value 200 used here for concrete witnesses is
the constant of the earlier revision of the bot and is never load bearing. -/
def settings : Settings :=
  { maxResults := 6
  , maxColumnWidth := 18
  , searchRadius := 200
  , result_thumb := "http://i.imgur.com/IG5PB4z.png" }

-- DATA MODEL ------------------------------------------------------------------

/-- A latitude/longitude pair as sent by Telegram or the EMT API. -/
structure Location where
  latitude : Rat
  longitude : Rat
  deriving DecidableEq, Repr

/-- emtBot.js line 48: `const emptyLocation = { latitude: 0, longitude: 0 }`. -/
def emptyLocation : Location := { latitude := 0, longitude := 0 }

/-- Geographic position attached to a built Stop. -/
structure Position where
  latitude : Rat
  longitude : Rat
  deriving DecidableEq, Repr

/-- One arriving bus as returned by getIncomingBusesToStop and decorated by
getArrivingBuses.  Only the fields the pipeline reads are modelled: lineId,
destination and busTimeLeft come from the API, and the display field time is
overwritten by getArrivingBuses (the API objects carry further fields, such as
busDistance, that nothing in the pipeline consults). -/
structure Bus where
  lineId : String
  destination : String
  busTimeLeft : Int
  time : String
  deriving DecidableEq, Repr

/-- The canonical Stop record produced by buildStop (emtBot.js lines 238-316).
`Lines` entries are `Option String` because the catalog page branch of
buildStop can leave `undefined` (here `none`) entries in the array.
`arriving` is set by getArrivingBuses; buildStop leaves it empty. -/
structure Stop where
  Id : String
  Name : String
  Lines : List (Option String)
  position : Option Position
  arriving : List Bus
  deriving DecidableEq, Repr

/-- One REG entry of the Lines XML (settings.emt_linesxml): `Line[0]` is the
three digit line code, `Label[0]` the public label. -/
structure XmlLine where
  Line : String
  Label : String
  deriving DecidableEq, Repr

/-- A structured line of a location search API raw stop (rawStop.line). -/
structure ApiLine where
  line : String
  direction : String
  deriving DecidableEq, Repr

/-- Raw stop shape from the reference catalog XML (has a `Node` field). -/
structure XmlRaw where
  Node : String
  Name : Option String
  Lines : Option String
  deriving DecidableEq, Repr

/-- Raw stop shape from the location search API (has a `stopId` field). -/
structure ApiStopRaw where
  stopId : String
  name : Option String
  line : List ApiLine
  latitude : Rat
  longitude : Rat
  deriving DecidableEq, Repr

/-- Raw stop shape from the catalog page API getNodesLines (has a `node`
field, a numeric id, and `lines` as an array of `code/direction` strings). -/
structure NodeRaw where
  node : Nat
  name : Option String
  lines : List String
  latitude : Rat
  longitude : Rat
  deriving DecidableEq, Repr

/-- The duck typed input of buildStop.  The source dispatches by presence
testing in priority order: `Node[0]` (xml), then `stopId` (apiStop), then
`node` (apiNode), otherwise the raw stop is bad.  The constructor tag records
which of those presence tests fires first. -/
inductive RawStop where
  | xml : XmlRaw → RawStop
  | apiStop : ApiStopRaw → RawStop
  | apiNode : NodeRaw → RawStop
  | bad : RawStop
  deriving DecidableEq, Repr

-- PROMISES --------------------------------------------------------------------

/-- Outcome of a JS promise: resolved with a value, rejected with an error
string, or never settled (an executor path that neither resolves nor
rejects, for example a `.catch` that only logs). -/
inductive PromiseOutcome (α : Type) where
  | resolved : α → PromiseOutcome α
  | rejected : String → PromiseOutcome α
  | pending : PromiseOutcome α
  deriving DecidableEq, Repr

/-- Promise.all over already determined outcomes: rejects if any element
rejects (timing of the first rejection approximated by list order), stays
pending if some element never settles and none rejects, otherwise resolves
with the list of values. -/
def promiseAll {α : Type} : List (PromiseOutcome α) → PromiseOutcome (List α)
  | [] => .resolved []
  | .rejected e :: _ => .rejected e
  | .pending :: rest =>
      match promiseAll rest with
      | .rejected e => .rejected e
      | _ => .pending
  | .resolved v :: rest =>
      match promiseAll rest with
      | .resolved vs => .resolved (v :: vs)
      | .rejected e => .rejected e
      | .pending => .pending

-- JS STRING / NUMBER UTILITIES ------------------------------------------------

/-- Drop one leading sign character, as JS ToNumber accepts. -/
def stripSign : List Char → List Char
  | '+' :: rest => rest
  | '-' :: rest => rest
  | l => l

/-- A signed decimal literal: digits, optionally with a decimal point. -/
def decimalLiteral (t : List Char) : Bool :=
  match (stripSign t).span Char.isDigit with
  | (intPart, []) => !intPart.isEmpty
  | (intPart, '.' :: frac) => (!intPart.isEmpty || !frac.isEmpty) && frac.all Char.isDigit
  | _ => false

/-- Whitespace as stripped by JS string trimming (the forms occurring in
Telegram queries). -/
def jsWhitespace (c : Char) : Bool :=
  (c == ' ') || (c == '\t') || (c == '\n') || (c == '\r')

/-- Trimming on the character list. -/
def jsTrimList (l : List Char) : List Char :=
  ((l.dropWhile jsWhitespace).reverse.dropWhile jsWhitespace).reverse

/-- Model of request.query.trim() (emtBot.js line 488). -/
def jsTrim (s : String) : String :=
  String.mk (jsTrimList s.toList)

/-- Model of JavaScript `isNaN(+s)` (emtBot.js line 341 and 522).  ToNumber
trims whitespace, maps the empty string to 0 (not NaN) and otherwise parses a
numeric literal.  The model covers signed decimal literals; the exotic forms
ToNumber also accepts (exponents, hex, Infinity) are irrelevant to every
input any theorem below touches. -/
def jsIsNaN (s : String) : Bool :=
  let t := jsTrimList s.toList
  if t.isEmpty then false else !decimalLiteral t

/-- Model of the lodash padStart call of emtBot.js line 106: left pad with
the digit zero up to the requested width. -/
def padStartZeros (s : String) (n : Nat) : String :=
  if n ≤ s.length then s else String.mk (List.replicate (n - s.length) '0') ++ s

/-- Model of the lodash padEnd call of emtBot.js line 416: right pad with
spaces up to the requested width. -/
def padEnd (n : Nat) (s : String) : String :=
  if n ≤ s.length then s else s ++ String.mk (List.replicate (n - s.length) ' ')

/-- Model of the lodash truncate call of emtBot.js lines 413-415, with the
default three dot omission: a string longer than n is cut to total length n
ending in the omission; when n leaves no room for any character before the
omission, lodash returns the omission alone. -/
def truncateLodash (n : Nat) (s : String) : String :=
  if s.length ≤ n then s
  else if n ≤ 3 then "..."
  else String.mk (s.toList.take (n - 3)) ++ "..."

/-- The apostrophe character, kept out of string literals. -/
def apos : Char := Char.ofNat 39

/-- The rejection message of findStops (emtBot.js line 353). -/
def rejectMsg : String :=
  "Query is empty and the user didn" ++ String.singleton apos ++ "t send a location"

-- REFERENCE CATALOG LOOKUP ----------------------------------------------------

/-- findXmlLine (emtBot.js lines 104-108): first XML line whose `Line[0]`
equals the queried code left padded with zeros to three digits. -/
def findXmlLine (table : List XmlLine) (lineId : String) : Option XmlLine :=
  table.find? (fun o => o.Line == padStartZeros lineId 3)

-- STOP NORMALIZER (buildStop, emtBot.js lines 238-316) ------------------------

/-- The `stopId` branch of buildStop (lines 266-283): name defaults to
`Parada <id>`, each structured line maps direction B to `ida` and anything
else to `vuelta`, position is copied from the raw record. -/
def buildFromApi (r : ApiStopRaw) : Stop :=
  { Id := r.stopId
  , Name := r.name.getD ("Parada " ++ r.stopId)
  , Lines := r.line.map (fun l =>
      some (if l.direction = "B" then l.line ++ " ida" else l.line ++ " vuelta"))
  , position := some { latitude := r.latitude, longitude := r.longitude }
  , arriving := [] }

/-- Model of the JS string split method with a one character separator, on
character lists: the semantics of splitting rawLine at each slash (a
trailing separator yields a trailing empty token, exactly as in JS). -/
def splitChar (sep : Char) : List Char → List (List Char)
  | [] => [[]]
  | c :: cs =>
      if c == sep then [] :: splitChar sep cs
      else
        match splitChar sep cs with
        | [] => [[c]]
        | h :: t => (c :: h) :: t

/-- One line of the `node` branch of buildStop (lines 290-305): the raw
`code/direction` token is split, the code looked up with findXmlLine; when the
lookup fails, dereferencing `.Label` throws, the catch block only logs, and
the map callback returns `undefined` (`none` here).  Direction token `1` maps
to `ida`, anything else (including a missing token) to `vuelta`. -/
def buildNodeLine (table : List XmlLine) (rawLine : String) : Option String :=
  let temp := (splitChar '/' rawLine.toList).map String.mk
  match findXmlLine table (temp.headD "") with
  | some xl =>
      if temp[1]? = some "1" then some (xl.Label ++ " ida") else some (xl.Label ++ " vuelta")
  | none => none

/-- The `node` branch of buildStop (lines 284-310): empty line tokens are
filtered out first, the remaining tokens are mapped by `buildNodeLine`. -/
def buildFromNode (table : List XmlLine) (r : NodeRaw) : Stop :=
  { Id := toString r.node
  , Name := r.name.getD ("Parada " ++ toString r.node)
  , Lines := (r.lines.filter (fun x => x.length > 0)).map (buildNodeLine table)
  , position := some { latitude := r.latitude, longitude := r.longitude }
  , arriving := [] }

/-- buildStop (emtBot.js lines 238-316).  The xml branch always rejects in
this revision: either a line code is missing from the table and dereferencing
`.Label` of `undefined` throws inside the executor, or the branch reaches
getStopLocation, which immediately evaluates `stopCache.filter`; stopCache is
a plain object without a filter method, so a TypeError is thrown
synchronously and the promise rejects.  The two API branches resolve
synchronously; a raw stop passing none of the three presence tests rejects
with the bad raw stop message (line 313). -/
def buildStop (table : List XmlLine) : RawStop → PromiseOutcome Stop
  | .xml _ => .rejected "TypeError"
  | .apiStop r => .resolved (buildFromApi r)
  | .apiNode r => .resolved (buildFromNode table r)
  | .bad => .rejected "StopBuild->Bad raw stop"

-- ARRIVAL FETCHER (getArrivingBuses, emtBot.js lines 114-141) -----------------

/-- The behaviour of EMTAPI.getIncomingBusesToStop for each stop id. -/
abbrev FetchApi := String → Except String (List Bus)

/-- The pretty printed arrival time (lines 122-130): the marker `<<<` when
busTimeLeft is 0 or the floored minute count is 0, `+20` when busTimeLeft is
the sentinel 999999, otherwise the bare minute count. -/
def prettyTime (t : Int) : String :=
  if t = 0 ∨ Int.fdiv t 60 = 0 then "<<<"
  else if t = 999999 then "+20"
  else toString (Int.fdiv t 60)

/-- Storing the pretty printed time on the bus record (emtBot.js line 131). -/
def attachTime (bus : Bus) : Bus :=
  { bus with time := prettyTime bus.busTimeLeft }

/-- Result of getArrivingBuses: the promise always resolves, either with the
stop (arrivals attached) or with an error marker string. -/
inductive FetchResult where
  | ok : Stop → FetchResult
  | err : String → FetchResult
  deriving DecidableEq, Repr

/-- getArrivingBuses (lines 114-141): on API success the arrivals are
decorated with the display time and attached to the stop; on API failure the
promise resolves (never rejects) with the string `Error: <error>`. -/
def getArrivingBuses (fetch : FetchApi) (stop : Stop) : FetchResult :=
  match fetch stop.Id with
  | .ok arriving => .ok { stop with arriving := arriving.map attachTime }
  | .error e => .err ("Error: " ++ e)

-- QUERY RESOLVER (findStops, emtBot.js lines 330-397) -------------------------

/-- The stop cache (emtBot.js line 59), a JS object keyed by stop id,
modelled as its ordered list of own entries. -/
abbrev StopCache := List (String × Stop)

/-- Model of Object.keys on the stop cache, in enumeration order. -/
def objectKeys (cache : StopCache) : List String :=
  cache.map Prod.fst

/-- Indexing the stop cache object by a key: the first matching entry (a JS
object has at most one entry per key). -/
def objectGet (cache : StopCache) (k : String) : Option Stop :=
  (cache.find? (fun p => p.fst == k)).map Prod.snd

/-- The behaviour of EMTAPI.getStopsFromLocation. -/
abbrev LocationApi := Location → Nat → Except String (List RawStop)

/-- isNaNQuery flag (lines 341-345): the query is nonempty but does not
coerce to a number. -/
def isNaNQueryFlag (query : String) : Bool :=
  decide (query.length ≠ 0) && jsIsNaN query

/-- isEmptyQuery flag after lines 336-345: originally set for a length zero
query, and also forced on when the nonempty query is not numeric. -/
def isEmptyQueryFlag (query : String) : Bool :=
  decide (query.length = 0) || isNaNQueryFlag query

/-- isLocationQuery flag (lines 346-350): some coordinate differs from 0. -/
def isLocationQueryFlag (location : Location) : Bool :=
  decide (location.latitude ≠ 0) || decide (location.longitude ≠ 0)

/-- Character level prefix test: the semantics of `_.startsWith(o, query)`. -/
def startsWithChars : List Char → List Char → Bool
  | _, [] => true
  | [], _ :: _ => false
  | c :: cs, d :: ds => (c == d) && startsWithChars cs ds

/-- The matching predicate on cache keys (lines 362-369): prefix match by
default, equality when exact is set. -/
def findFunction (exact : Bool) (query : String) (o : String) : Bool :=
  if exact then o == query else startsWithChars o.toList query.toList

/-- The location fallback of findStops (lines 381-396): call the stops from
location API with settings.searchRadius, cap the raw results to
settings.maxResults, normalize each through buildStop and resolve with the
built list.  Any failure in this chain (the API call rejecting, or a
normalization rejecting inside Promise.all) is caught by a handler that only
records the exception, so the outer promise never settles on those paths. -/
def locationSearch (api : LocationApi) (table : List XmlLine) (cfg : Settings)
    (location : Location) : PromiseOutcome (List Stop) :=
  match api location cfg.searchRadius with
  | .error _ => .pending
  | .ok stops =>
      match promiseAll ((stops.take cfg.maxResults).map (buildStop table)) with
      | .resolved built => .resolved built
      | _ => .pending

/-- findStops (emtBot.js lines 330-397).  The guard of line 351 rejects when
the (possibly forced) empty query flag is set without a location, or whenever
the query is nonempty and non numeric.  A nonempty query is then matched
against the cache keys, capped to settings.maxResults; a nonempty match
resolves immediately with the cached stops.  Otherwise the location fallback
runs, even when the location is the all zero placeholder. -/
def findStops (api : LocationApi) (table : List XmlLine) (cache : StopCache)
    (cfg : Settings) (query : String) (location : Location) (exact : Bool) :
    PromiseOutcome (List Stop) :=
  if (isEmptyQueryFlag query && !isLocationQueryFlag location) || isNaNQueryFlag query then
    .rejected rejectMsg
  else
    let foundByQuery : List String :=
      if !isEmptyQueryFlag query then
        ((objectKeys cache).filter (findFunction exact query)).take cfg.maxResults
      else []
    if foundByQuery.length > 0 then
      .resolved (foundByQuery.filterMap (objectGet cache))
    else
      locationSearch api table cfg location

-- TABLE RENDERER (getColumnWidths and renderStop, lines 148-163, 403-452) -----

/-- The fixed column set rendered in a table (emtBot.js line 53). -/
inductive Col where
  | lineId
  | destination
  | time
  deriving DecidableEq, Repr

/-- The fixed rendered column list of emtBot.js line 53: lineId, then
destination, then time. -/
def columns : List Col := [Col.lineId, Col.destination, Col.time]

/-- Reading one of the three rendered columns off an arrival record. -/
def colValue (bus : Bus) : Col → String
  | .lineId => bus.lineId
  | .destination => bus.destination
  | .time => bus.time

/-- getColumnWidths (lines 148-163) for one column: the running maximum over
the arrivals of the value length clamped to settings.maxColumnWidth, starting
from 0.  The source builds an object keyed by column name; the object is
modelled as this function from columns to widths. -/
def getColumnWidths (cfg : Settings) (stop : Stop) (col : Col) : Nat :=
  stop.arriving.foldl
    (fun currentMax bus => max currentMax (min (colValue bus col).length cfg.maxColumnWidth))
    0

/-- One cell of a rendered row (lines 411-418): the value truncated to
settings.maxColumnWidth and then right padded to the computed column width. -/
def renderCell (cfg : Settings) (stop : Stop) (bus : Bus) (col : Col) : String :=
  padEnd (getColumnWidths cfg stop col)
    (truncateLodash cfg.maxColumnWidth (colValue bus col))

/-- The cells of one arrival row, in the key order of the widths object,
which is the insertion order of `columns` (lines 410-418). -/
def renderRowCells (cfg : Settings) (stop : Stop) (bus : Bus) : List String :=
  columns.map (renderCell cfg stop bus)

/-- One arrival row (line 419): the cells joined by single spaces, wrapped in
backticks for monospace rendering. -/
def renderRow (cfg : Settings) (stop : Stop) (bus : Bus) : String :=
  "`" ++ String.intercalate " " (renderRowCells cfg stop bus) ++ "`"

/-- The arrivals block of a rendered stop (lines 405-422): the rows joined by
CRLF, or the fixed no estimations message when there are no arrivals. -/
def arrivingText (cfg : Settings) (stop : Stop) : String :=
  if stop.arriving.length > 0 then
    String.intercalate "\r\n" (stop.arriving.map (renderRow cfg stop))
  else "Sin estimaciones"

/-- The map link block (lines 423-429): present only when the stop has a
position.  JS number printing is modelled by the Rat ToString instance. -/
def mapaText (stop : Stop) : String :=
  match stop.position with
  | none => ""
  | some p =>
      "\n\n[" ++ String.mk ['¿'] ++ "D" ++ String.mk ['ó'] ++ "nde est" ++ String.mk ['á'] ++
      " la parada?](https://www.google.com/maps/@" ++ toString p.latitude ++ "," ++
      toString p.longitude ++ ",19z)"

/-- The comma join of stop.Lines in the result description renders an
undefined entry as the empty string. -/
def lineText (o : Option String) : String := o.getD ""

/-- The inline result built by renderStop (lines 403-452).  The fresh random
uuid of result.id is omitted: it is regenerated on every call and nothing in
the pipeline or the claims reads it. -/
structure RenderResult where
  title : String
  message_text : String
  description : String
  callback_data : String
  thumb_url : String
  deriving DecidableEq, Repr

/-- renderStop (lines 403-452): title `<id> - <name>`, message body made of
the header line, the arrivals table and the optional map link, description
listing the lines comma joined, and a refresh button bound to the stop id. -/
def renderStop (cfg : Settings) (stop : Stop) : RenderResult :=
  { title := stop.Id ++ " - " ++ stop.Name
  , message_text :=
      "*" ++ stop.Id ++ "* " ++ stop.Name ++ "\n" ++ arrivingText cfg stop ++ mapaText stop
  , description := "L" ++ String.mk ['í'] ++ "neas: " ++
      String.intercalate ", " (stop.Lines.map lineText)
  , callback_data := "refresh:" ++ stop.Id
  , thumb_url := cfg.result_thumb }

-- ORCHESTRATOR (inline_query handler, lines 486-519) --------------------------

/-- The orchestrator rejects string values: this keeps exactly the non
string results of the fan out (emtBot.js lines 504-507). -/
def nonError : FetchResult → Option Stop
  | .ok s => some s
  | .err _ => none

/-- The post resolution stages of the inline query handler (lines 495-512):
fan out getArrivingBuses over the stops, drop the string error markers, fan
out renderStop over the survivors. -/
def inlineRender (fetch : FetchApi) (cfg : Settings) (stops : List Stop) :
    List RenderResult :=
  ((stops.map (getArrivingBuses fetch)).filterMap nonError).map (renderStop cfg)

/-- The full inline query handler (lines 486-519): the incoming query text is
trimmed, findStops runs with the exact flag off; when it resolves, the
rendered results are answered.  When findStops rejects, the final catch only
logs, so no answer is sent; when findStops never settles, the chain never
continues, so no answer is sent either.  The return value is the list passed
to answerInlineQuery, or none when answerInlineQuery is never called. -/
def inlineQueryAnswer (api : LocationApi) (table : List XmlLine) (cache : StopCache)
    (cfg : Settings) (fetch : FetchApi) (rawQuery : String) (location : Location) :
    Option (List RenderResult) :=
  match findStops api table cache cfg (jsTrim rawQuery) location false with
  | .resolved stops => some (inlineRender fetch cfg stops)
  | _ => none

-- REFRESH PATH (processRefresh, lines 521-568) --------------------------------

/-- The edit in place update emitted at the end of a successful refresh
(lines 547-563): the rendered message text and the refresh button rebuilt
from the requested stop id. -/
structure EditMessage where
  text : String
  callback_data : String
  deriving DecidableEq, Repr

/-- processRefresh (lines 521-568).  The first component is the edit emitted
by editMessageText (none when no edit happens); the second component
instruments the calls to getArrivingBuses with the ids of the stops fetched.
A non numeric stop id returns immediately; a resolver outcome other than a
singleton list rejects before any fetch; a fetch that produced the string
error marker rejects before rendering.  Rejections and a never settling
resolver both fall to the final catch, which only logs. -/
def processRefresh (api : LocationApi) (table : List XmlLine) (cache : StopCache)
    (cfg : Settings) (fetch : FetchApi) (stopId : String) :
    Option EditMessage × List String :=
  if jsIsNaN stopId then (none, [])
  else
    match findStops api table cache cfg stopId emptyLocation true with
    | .resolved [stop] =>
        match getArrivingBuses fetch stop with
        | .err _ => (none, [stop.Id])
        | .ok s1 =>
            (some { text := (renderStop cfg s1).message_text
                  , callback_data := "refresh:" ++ stopId }, [stop.Id])
    | _ => (none, [])

-- SHARED HELPER LEMMAS --------------------------------------------------------

/-- The location fallback never rejects the findStops promise: an upstream
failure is swallowed by a handler that only records the exception, leaving
the promise unsettled, and a successful chain resolves. -/
theorem locationSearch_ne_rejected (api : LocationApi) (table : List XmlLine)
    (cfg : Settings) (loc : Location) (msg : String) :
    locationSearch api table cfg loc ≠ PromiseOutcome.rejected msg := by
  unfold locationSearch
  split
  · intro h; cases h
  · split
    · intro h; cases h
    · intro h; cases h

/-- Promise.all over a list of already resolved promises resolves with the
list of their values. -/
theorem promiseAll_map_resolved {α β : Type} (f : α → β) (l : List α) :
    promiseAll (l.map (fun a => PromiseOutcome.resolved (f a)))
      = PromiseOutcome.resolved (l.map f) := by
  induction l with
  | nil => rfl
  | cons a t ih => simp [promiseAll, ih]

/-- The running width maximum of getColumnWidths never exceeds the clamp once
the accumulator is below it. -/
theorem foldl_width_le (cfg : Settings) (col : Col) (l : List Bus) (acc : Nat)
    (h : acc ≤ cfg.maxColumnWidth) :
    l.foldl
        (fun currentMax bus =>
          max currentMax (min (colValue bus col).length cfg.maxColumnWidth))
        acc
      ≤ cfg.maxColumnWidth := by
  induction l generalizing acc with
  | nil => exact h
  | cons b t ih => exact ih _ (max_le h (min_le_right _ _))

/-- The inline fan out distributes over list append. -/
theorem inlineRender_append (fetch : FetchApi) (cfg : Settings) (a b : List Stop) :
    inlineRender fetch cfg (a ++ b) = inlineRender fetch cfg a ++ inlineRender fetch cfg b := by
  simp [inlineRender, List.filterMap_append]

/-- A stop whose arrival fetch fails contributes nothing to the rendered
results: its error marker is filtered out before rendering. -/
theorem inlineRender_err_cons (fetch : FetchApi) (cfg : Settings) (bad : Stop)
    (l : List Stop) (e : String) (h : fetch bad.Id = Except.error e) :
    inlineRender fetch cfg (bad :: l) = inlineRender fetch cfg l := by
  simp [inlineRender, getArrivingBuses, h, nonError]

/-- When every arrival fetch in a batch succeeds, every stop of the batch is
rendered: the result count equals the stop count. -/
theorem inlineRender_length (fetch : FetchApi) (cfg : Settings) (l : List Stop)
    (h : ∀ s ∈ l, ∃ arr, fetch s.Id = Except.ok arr) :
    (inlineRender fetch cfg l).length = l.length := by
  induction l with
  | nil => rfl
  | cons a t ih =>
    obtain ⟨arr, ha⟩ := h a (List.mem_cons_self a t)
    have ht := ih (fun s hs => h s (List.mem_cons_of_mem a hs))
    have hga : getArrivingBuses fetch a
        = FetchResult.ok { a with arriving := arr.map attachTime } := by
      simp [getArrivingBuses, ha]
    simp only [inlineRender] at ht ⊢
    rw [List.map_cons, hga, List.filterMap_cons]
    simp only [nonError]
    rw [List.map_cons, List.length_cons, List.length_cons, ht]

-- SHARED CONCRETE FIXTURES ----------------------------------------------------

/-- A location API that always succeeds with no stops. -/
def apiEmpty : LocationApi := fun _ _ => Except.ok []

/-- A location API that always fails. -/
def apiErr : LocationApi := fun _ _ => Except.error "ECONNRESET"

/-- An arrivals API that always fails. -/
def fetchErr : FetchApi := fun _ => Except.error "down"

/-- A nonzero user location. -/
def locMadrid : Location := { latitude := 40, longitude := -3 }

/-- A bare cached stop fixture. -/
def stopW1 : Stop := { Id := "1", Name := "N1", Lines := [], position := none, arriving := [] }

/-- A bare cached stop fixture. -/
def stopW2 : Stop := { Id := "2", Name := "N2", Lines := [], position := none, arriving := [] }

/-- A bare cached stop fixture. -/
def stopW3 : Stop := { Id := "3", Name := "N3", Lines := [], position := none, arriving := [] }

-- CLAIM C1 --------------------------------------------------------------------

/-- An arrival 30 seconds away. -/
def busC1 : Bus := { lineId := "47", destination := "CARABANCHEL", busTimeLeft := 30, time := "" }

/-- An arrival 125 seconds away. -/
def bus125 : Bus := { lineId := "47", destination := "CARABANCHEL", busTimeLeft := 125, time := "" }

/-- A stop fixture for the arrival fetcher. -/
def stopC1 : Stop :=
  { Id := "2441", Name := "PLAZA", Lines := [some "47 ida"], position := none, arriving := [] }

/-- An arrivals API returning the two fixtures above. -/
def fetchC1 : FetchApi := fun _ => Except.ok [busC1, bus125]

/-- C1, counterexample: the claim says that apart from the sentinels 0 and
999999 the display string is the bare number floor(busTimeLeft / 60); for
busTimeLeft = 30 that would be "0", but the attached display string is the
arriving now marker, because the code also maps a zero floored minute count
to the marker. -/
theorem C1_counterexample :
    getArrivingBuses fetchC1 stopC1
      = FetchResult.ok { stopC1 with arriving :=
          [{ busC1 with time := "<<<" }, { bus125 with time := "2" }] }
    ∧ ("<<<" : String) ≠ "0" := by
  constructor
  · decide
  · decide

/-- C1 (amended): for every arrival attached by the Arrival Fetcher, the
display string is the arriving now marker when busTimeLeft is 0 or when
floor(busTimeLeft / 60) is 0; the more than 20 minutes marker when
busTimeLeft is 999999; and otherwise the bare number floor(busTimeLeft / 60)
- in particular busTimeLeft = 125 renders as "2". -/
theorem C1_time_mapping (fetch : FetchApi) (stop : Stop) (arr : List Bus)
    (h : fetch stop.Id = Except.ok arr) :
    getArrivingBuses fetch stop
      = FetchResult.ok { stop with arriving := arr.map attachTime }
    ∧ ∀ bus ∈ arr,
        ((bus.busTimeLeft = 0 ∨ Int.fdiv bus.busTimeLeft 60 = 0) →
          (attachTime bus).time = "<<<")
        ∧ (bus.busTimeLeft = 999999 → (attachTime bus).time = "+20")
        ∧ (bus.busTimeLeft ≠ 0 → Int.fdiv bus.busTimeLeft 60 ≠ 0 →
            bus.busTimeLeft ≠ 999999 →
            (attachTime bus).time = toString (Int.fdiv bus.busTimeLeft 60))
        ∧ (bus.busTimeLeft = 125 → (attachTime bus).time = "2") := by
  constructor
  · simp [getArrivingBuses, h]
  · intro bus _
    refine ⟨?_, ?_, ?_, ?_⟩
    · intro hz
      simp only [attachTime, prettyTime]
      rw [if_pos hz]
    · intro h9
      simp only [attachTime, prettyTime, h9]
      decide
    · intro h1 h2 h3
      simp only [attachTime, prettyTime]
      rw [if_neg (by tauto), if_neg h3]
    · intro h125
      simp only [attachTime, prettyTime, h125]
      decide

/-- Witness for C1_time_mapping at the concrete fixtures. -/
theorem C1_witness :
    fetchC1 stopC1.Id = Except.ok [busC1, bus125]
    ∧ getArrivingBuses fetchC1 stopC1
        = FetchResult.ok { stopC1 with arriving := [busC1, bus125].map attachTime } :=
  ⟨rfl, (C1_time_mapping fetchC1 stopC1 [busC1, bus125] rfl).1⟩

-- CLAIM C2 --------------------------------------------------------------------

/-- C2, counterexample: the claim says a non numeric query together with a
nonzero location proceeds via the location search and does not fail; the
resolver instead rejects with the ambiguous request error, because the reject
guard tests isNaNQuery on its own, location or not. -/
theorem C2_counterexample :
    ("abc".length ≠ 0)
    ∧ jsIsNaN "abc" = true
    ∧ (locMadrid.latitude ≠ 0 ∨ locMadrid.longitude ≠ 0)
    ∧ findStops apiEmpty [] [] settings "abc" locMadrid false
        = PromiseOutcome.rejected rejectMsg := by
  refine ⟨by decide, by decide, Or.inl (by decide), by decide⟩

/-- C2 (amended): a non empty query that does not parse as a number is NOT
treated as an empty text query: the resolver raises the ambiguous/empty
request error even when a nonzero location is supplied, and the error is
raised exactly when the query is empty with no location or the query is non
empty and non numeric. -/
theorem C2_invalid_query_rejected (api : LocationApi) (table : List XmlLine)
    (cache : StopCache) (cfg : Settings) (q : String) (loc : Location) (exact : Bool) :
    (q.length ≠ 0 → jsIsNaN q = true →
      findStops api table cache cfg q loc exact = PromiseOutcome.rejected rejectMsg)
    ∧ (findStops api table cache cfg q loc exact = PromiseOutcome.rejected rejectMsg ↔
        ((q.length = 0 ∧ loc.latitude = 0 ∧ loc.longitude = 0)
          ∨ (q.length ≠ 0 ∧ jsIsNaN q = true))) := by
  constructor
  · intro hq hnan
    have h1 : isNaNQueryFlag q = true := by simp [isNaNQueryFlag, hq, hnan]
    simp [findStops, h1]
  · constructor
    · intro h
      cases hguard : (isEmptyQueryFlag q && !isLocationQueryFlag loc) || isNaNQueryFlag q with
      | false =>
        exfalso
        simp only [findStops, hguard, Bool.false_eq_true, if_false] at h
        by_cases hlen : 0 < ((if !isEmptyQueryFlag q then
            ((objectKeys cache).filter (findFunction exact q)).take cfg.maxResults
          else []).length)
        · rw [if_pos hlen] at h
          cases h
        · rw [if_neg hlen] at h
          exact locationSearch_ne_rejected api table cfg loc rejectMsg h
      | true =>
        simp only [isEmptyQueryFlag, isNaNQueryFlag, isLocationQueryFlag, Bool.or_eq_true,
          Bool.and_eq_true, Bool.not_eq_true', Bool.or_eq_false_iff,
          decide_eq_true_eq, decide_eq_false_iff_not, not_not] at hguard
        tauto
    · intro h
      rcases h with ⟨hq0, hlat, hlon⟩ | ⟨hq1, hnan⟩
      · have h1 : isEmptyQueryFlag q = true := by simp [isEmptyQueryFlag, hq0]
        have h2 : isLocationQueryFlag loc = false := by
          simp [isLocationQueryFlag, hlat, hlon]
        simp [findStops, h1, h2]
      · have h1 : isNaNQueryFlag q = true := by simp [isNaNQueryFlag, hq1, hnan]
        simp [findStops, h1]

/-- Witness for C2_invalid_query_rejected at a concrete non numeric query
with a nonzero location. -/
theorem C2_witness :
    ("x9".length ≠ 0)
    ∧ jsIsNaN "x9" = true
    ∧ findStops apiEmpty [] [] settings "x9" locMadrid true
        = PromiseOutcome.rejected rejectMsg :=
  ⟨by decide, by decide,
    (C2_invalid_query_rejected apiEmpty [] [] settings "x9" locMadrid true).1
      (by decide) (by decide)⟩

-- CLAIM C3 --------------------------------------------------------------------

/-- C3 (confirmed): a non empty numeric query matching at least one cached
stop id (prefix match when exact is off, equality when on) together with a
nonzero location resolves with exactly the text matched stops, capped to
maxResults in cache enumeration order, and the outcome is independent of the
location search API: the location path is never consulted. -/
theorem C3_text_precedence (api1 api2 : LocationApi) (table1 table2 : List XmlLine)
    (cache : StopCache) (cfg : Settings) (q : String) (loc : Location) (exact : Bool)
    (hq : q.length ≠ 0) (hnan : jsIsNaN q = false)
    (_hloc : loc.latitude ≠ 0 ∨ loc.longitude ≠ 0)
    (hfound : (((objectKeys cache).filter (findFunction exact q)).take cfg.maxResults) ≠ []) :
    findStops api1 table1 cache cfg q loc exact
      = PromiseOutcome.resolved
          ((((objectKeys cache).filter (findFunction exact q)).take cfg.maxResults).filterMap
            (objectGet cache))
    ∧ findStops api1 table1 cache cfg q loc exact
      = findStops api2 table2 cache cfg q loc exact := by
  have h1 : isNaNQueryFlag q = false := by simp [isNaNQueryFlag, hnan]
  have h2 : isEmptyQueryFlag q = false := by simp [isEmptyQueryFlag, h1, hq]
  have h3 : 0 < (((objectKeys cache).filter (findFunction exact q)).take cfg.maxResults).length :=
    List.length_pos.mpr hfound
  have key : ∀ (api : LocationApi) (table : List XmlLine),
      findStops api table cache cfg q loc exact
        = PromiseOutcome.resolved
            ((((objectKeys cache).filter (findFunction exact q)).take cfg.maxResults).filterMap
              (objectGet cache)) := by
    intro api table
    unfold findStops
    rw [h1, h2]
    simp only [Bool.false_and, Bool.false_or, Bool.or_false, Bool.false_eq_true, if_false,
      Bool.not_false, if_true]
    rw [if_pos h3]
  exact ⟨key api1 table1, (key api1 table1).trans (key api2 table2).symm⟩

/-- Cached stop fixture with id 1234. -/
def stop1234 : Stop := { Id := "1234", Name := "A", Lines := [], position := none, arriving := [] }

/-- Cached stop fixture with id 1235. -/
def stop1235 : Stop := { Id := "1235", Name := "B", Lines := [], position := none, arriving := [] }

/-- A cache holding the two fixtures above, in insertion order. -/
def cacheC3 : StopCache := [("1234", stop1234), ("1235", stop1235)]

/-- Witness for C3_text_precedence: query 123 prefix matches both cached ids
and resolves with both stops in cache order, ignoring the location. -/
theorem C3_witness :
    ((((objectKeys cacheC3).filter (findFunction false "123")).take settings.maxResults) ≠ [])
    ∧ findStops apiEmpty [] cacheC3 settings "123" locMadrid false
        = PromiseOutcome.resolved
            ((((objectKeys cacheC3).filter (findFunction false "123")).take settings.maxResults).filterMap
              (objectGet cacheC3)) :=
  ⟨by decide,
    (C3_text_precedence apiEmpty apiEmpty [] [] cacheC3 settings "123" locMadrid false
      (by decide) (by decide) (Or.inl (by decide)) (by decide)).1⟩

-- CLAIM C4 --------------------------------------------------------------------

/-- C4 (confirmed): with a nonzero location and either an empty query or a
numeric query matching no cached id, findStops falls back to the stops near
location API called with radius settings.searchRadius, normalizes each raw
result through the Stop Normalizer and resolves with the built list capped to
settings.maxResults (the code caps the raw list before normalizing, which
yields the same list). -/
theorem C4_location_fallback (api : LocationApi) (table : List XmlLine)
    (cache : StopCache) (cfg : Settings) (q : String) (loc : Location) (exact : Bool)
    (raws : List ApiStopRaw)
    (hloc : loc.latitude ≠ 0 ∨ loc.longitude ≠ 0)
    (hq : q.length = 0
        ∨ (q.length ≠ 0 ∧ jsIsNaN q = false
            ∧ (objectKeys cache).filter (findFunction exact q) = []))
    (hapi : api loc cfg.searchRadius = Except.ok (raws.map RawStop.apiStop)) :
    findStops api table cache cfg q loc exact
      = PromiseOutcome.resolved ((raws.take cfg.maxResults).map buildFromApi) := by
  have hlocflag : isLocationQueryFlag loc = true := by
    simp only [isLocationQueryFlag, Bool.or_eq_true, decide_eq_true_eq]
    tauto
  have hfall : locationSearch api table cfg loc
      = PromiseOutcome.resolved ((raws.take cfg.maxResults).map buildFromApi) := by
    unfold locationSearch
    rw [hapi]
    simp only [← List.map_take, List.map_map]
    have hcomp : (buildStop table ∘ RawStop.apiStop)
        = fun a => PromiseOutcome.resolved (buildFromApi a) := rfl
    rw [hcomp, promiseAll_map_resolved]
  rcases hq with hq0 | ⟨hq1, hnan, hfilter⟩
  · have h1 : isNaNQueryFlag q = false := by simp [isNaNQueryFlag, hq0]
    have h2 : isEmptyQueryFlag q = true := by simp [isEmptyQueryFlag, hq0]
    simp [findStops, h1, h2, hlocflag, hfall]
  · have h1 : isNaNQueryFlag q = false := by simp [isNaNQueryFlag, hnan]
    have h2 : isEmptyQueryFlag q = false := by simp [isEmptyQueryFlag, h1, hq1]
    simp [findStops, h1, h2, hfilter, hfall]

/-- A raw location search result fixture. -/
def rawA : ApiStopRaw :=
  { stopId := "2443", name := some "AV.ABRANTES"
  , line := [{ line := "47", direction := "B" }], latitude := 40, longitude := -3 }

/-- A location API returning exactly the fixture above. -/
def apiC4 : LocationApi := fun _ _ => Except.ok [RawStop.apiStop rawA]

/-- Witness for C4_location_fallback: empty query plus nonzero location
resolves with the normalized location results. -/
theorem C4_witness :
    apiC4 locMadrid settings.searchRadius = Except.ok ([rawA].map RawStop.apiStop)
    ∧ findStops apiC4 [] [] settings "" locMadrid false
        = PromiseOutcome.resolved (([rawA].take settings.maxResults).map buildFromApi) :=
  ⟨rfl,
    C4_location_fallback apiC4 [] [] settings "" locMadrid false [rawA]
      (Or.inl (by decide)) (Or.inl (by decide)) rfl⟩

-- CLAIM C5 --------------------------------------------------------------------

/-- C5 (confirmed): when the arrival fetch fails for exactly one of the
resolved stops, the inline pipeline renders exactly N - 1 results: the failed
fetch resolves to a string marker, the orchestrator filters all string values
out, and the surviving stops render exactly as they would without the failed
one. -/
theorem C5_all_settle (fetch : FetchApi) (cfg : Settings) (pre post : List Stop)
    (bad : Stop) (e : String)
    (hbad : fetch bad.Id = Except.error e)
    (hpre : ∀ s ∈ pre, ∃ arr, fetch s.Id = Except.ok arr)
    (hpost : ∀ s ∈ post, ∃ arr, fetch s.Id = Except.ok arr) :
    inlineRender fetch cfg (pre ++ bad :: post) = inlineRender fetch cfg (pre ++ post)
    ∧ (inlineRender fetch cfg (pre ++ bad :: post)).length
        = (pre ++ bad :: post).length - 1 := by
  have h1 : inlineRender fetch cfg (pre ++ bad :: post)
      = inlineRender fetch cfg pre ++ inlineRender fetch cfg post := by
    rw [inlineRender_append, inlineRender_err_cons fetch cfg bad post e hbad]
  have h2 : inlineRender fetch cfg (pre ++ post)
      = inlineRender fetch cfg pre ++ inlineRender fetch cfg post :=
    inlineRender_append fetch cfg pre post
  refine ⟨h1.trans h2.symm, ?_⟩
  rw [h1]
  simp only [List.length_append, List.length_cons,
    inlineRender_length fetch cfg pre hpre, inlineRender_length fetch cfg post hpost]
  omega

/-- An arrivals API failing exactly for stop id 2. -/
def fetchC5 : FetchApi := fun id => if id = "2" then Except.error "boom" else Except.ok []

/-- Witness for C5_all_settle: three stops, the middle fetch fails, two
results are rendered. -/
theorem C5_witness :
    fetchC5 stopW2.Id = Except.error "boom"
    ∧ (inlineRender fetchC5 settings ([stopW1] ++ stopW2 :: [stopW3])).length
        = ([stopW1] ++ stopW2 :: [stopW3]).length - 1 :=
  ⟨rfl,
    (C5_all_settle fetchC5 settings [stopW1] [stopW3] stopW2 "boom" rfl
      (by intro s hs; simp only [List.mem_singleton] at hs; subst hs; exact ⟨[], rfl⟩)
      (by intro s hs; simp only [List.mem_singleton] at hs; subst hs; exact ⟨[], rfl⟩)).2⟩

-- CLAIM C6 --------------------------------------------------------------------

/-- A line table that knows line 070 only. -/
def tableC6 : List XmlLine := [{ Line := "070", Label := "70" }]

/-- A catalog page raw stop referencing a line missing from the table. -/
def rawC6 : NodeRaw :=
  { node := 1, name := some "AVENIDA", lines := ["999/1"], latitude := 40, longitude := -3 }

/-- C6, divergence witness: normalizing a catalog page stop whose single line
code is missing from the Reference Catalog succeeds, but the unresolved line
is NOT dropped from the sequence: the map callback falls through its catch
block and leaves an undefined entry (none) in place, so the resulting Lines
is [none] rather than []. -/
theorem C6_line_not_dropped :
    buildStop tableC6 (RawStop.apiNode rawC6)
      = PromiseOutcome.resolved
          { Id := "1", Name := "AVENIDA", Lines := [none]
          , position := some { latitude := 40, longitude := -3 }, arriving := [] }
    ∧ buildStop tableC6 (RawStop.apiNode rawC6)
      ≠ PromiseOutcome.resolved
          { Id := "1", Name := "AVENIDA", Lines := []
          , position := some { latitude := 40, longitude := -3 }, arriving := [] } := by
  constructor
  · decide
  · decide

-- CLAIM C7 --------------------------------------------------------------------

/-- C7 (confirmed): for every stop with at least one arrival, each computed
column width is at most settings.maxColumnWidth, the rendered table is the
CRLF join of the per arrival rows, and every row is the space join of exactly
the three cells line id, destination and display time, in that fixed order,
each cell truncated to the cap before being padded to the column width. -/
theorem C7_table_shape (cfg : Settings) (stop : Stop) (h : stop.arriving ≠ []) :
    (∀ col ∈ columns, getColumnWidths cfg stop col ≤ cfg.maxColumnWidth)
    ∧ arrivingText cfg stop
        = String.intercalate "\r\n" (stop.arriving.map (renderRow cfg stop))
    ∧ ∀ bus ∈ stop.arriving,
        renderRow cfg stop bus
          = "`" ++ String.intercalate " "
              [ padEnd (getColumnWidths cfg stop Col.lineId)
                  (truncateLodash cfg.maxColumnWidth bus.lineId)
              , padEnd (getColumnWidths cfg stop Col.destination)
                  (truncateLodash cfg.maxColumnWidth bus.destination)
              , padEnd (getColumnWidths cfg stop Col.time)
                  (truncateLodash cfg.maxColumnWidth bus.time) ] ++ "`" := by
  refine ⟨?_, ?_, ?_⟩
  · intro col _
    exact foldl_width_le cfg col stop.arriving 0 (Nat.zero_le _)
  · rw [arrivingText, if_pos (List.length_pos.mpr h)]
  · intro bus _
    rfl

/-- A rendered arrival fixture. -/
def busC7 : Bus :=
  { lineId := "47", destination := "CARABANCHELALTO", busTimeLeft := 693, time := "11" }

/-- A stop carrying one arrival. -/
def stopC7 : Stop :=
  { Id := "2441", Name := "X", Lines := [], position := none, arriving := [busC7] }

/-- Witness for C7_table_shape at the concrete fixture. -/
theorem C7_witness :
    (stopC7.arriving ≠ [])
    ∧ ∀ col ∈ columns, getColumnWidths settings stopC7 col ≤ settings.maxColumnWidth :=
  ⟨by decide, (C7_table_shape settings stopC7 (by decide)).1⟩

-- CLAIM C8 --------------------------------------------------------------------

/-- C8 (confirmed): when the exact resolver of a refresh request returns a
stop count different from one, the request is dropped: no arrival fetch is
issued (the instrumented fetch trace is empty) and no edit in place update is
emitted; and when the arrival fetch for the single resolved stop produces
the string error marker, no update is emitted either. -/
theorem C8_refresh_guard (api : LocationApi) (table : List XmlLine) (cache : StopCache)
    (cfg : Settings) (fetch : FetchApi) (stopId : String) (stops : List Stop) :
    (findStops api table cache cfg stopId emptyLocation true
        = PromiseOutcome.resolved stops →
      stops.length ≠ 1 →
      processRefresh api table cache cfg fetch stopId = (none, []))
    ∧ (∀ s e, findStops api table cache cfg stopId emptyLocation true
          = PromiseOutcome.resolved [s] →
        fetch s.Id = Except.error e →
        (processRefresh api table cache cfg fetch stopId).1 = none) := by
  constructor
  · intro hres hlen
    by_cases hn : jsIsNaN stopId = true
    · simp [processRefresh, hn]
    · rw [Bool.not_eq_true] at hn
      cases stops with
      | nil => simp [processRefresh, hn, hres]
      | cons a t =>
        cases t with
        | nil => simp at hlen
        | cons b t2 => simp [processRefresh, hn, hres]
  · intro s e hres herr
    by_cases hn : jsIsNaN stopId = true
    · simp [processRefresh, hn]
    · rw [Bool.not_eq_true] at hn
      simp [processRefresh, hn, hres, getArrivingBuses, herr]

/-- A second raw location search result fixture. -/
def rawB : ApiStopRaw :=
  { stopId := "8", name := some "B", line := [], latitude := 41, longitude := -4 }

/-- A location API returning two raw stops, so that even an exact refresh
resolution yields two candidates. -/
def apiC8 : LocationApi := fun _ _ => Except.ok [RawStop.apiStop rawA, RawStop.apiStop rawB]

/-- A cache resolving stop id 9 to the stopW1 fixture. -/
def cacheC8 : StopCache := [("9", stopW1)]

/-- Witness for C8_refresh_guard: a refresh resolving to two stops emits
nothing and fetches nothing; a refresh where the fetch for the single
resolved stop fails emits nothing. -/
theorem C8_witness :
    processRefresh apiC8 [] [] settings fetchErr "7" = (none, [])
    ∧ (processRefresh apiEmpty [] cacheC8 settings fetchErr "9").1 = none :=
  ⟨(C8_refresh_guard apiC8 [] [] settings fetchErr "7"
      [buildFromApi rawA, buildFromApi rawB]).1 (by decide) (by decide),
   (C8_refresh_guard apiEmpty [] cacheC8 settings fetchErr "9" [stopW1]).2
      stopW1 "down" (by decide) rfl⟩

-- CLAIM C9 --------------------------------------------------------------------

/-- C9, counterexample: the claim says a failing stops near location call is
treated as no results and the inline query is answered with an empty result
list; in fact the catch handler of the location chain only records the
exception and never settles the findStops promise, so answerInlineQuery is
never called at all: the emitted answer is none, not some []. -/
theorem C9_counterexample :
    inlineQueryAnswer apiErr [] [] settings fetchErr "" locMadrid = none
    ∧ (none : Option (List RenderResult)) ≠ some [] := by
  constructor
  · decide
  · decide

/-- C9 (amended): when resolution reaches the location path and the upstream
stops near location call fails, the failure is caught at the call site and
logged (it never escapes as an unhandled rejection; the model maps it to a
pending, not rejected, outcome), but the promise of the resolver never
settles, so
the inline query is never answered: no result list, empty or otherwise, is
emitted. -/
theorem C9_location_failure_no_answer (api : LocationApi) (table : List XmlLine)
    (cache : StopCache) (cfg : Settings) (fetch : FetchApi) (q : String)
    (loc : Location) (e : String)
    (hq : (jsTrim q).length = 0
        ∨ ((jsTrim q).length ≠ 0 ∧ jsIsNaN (jsTrim q) = false
            ∧ (objectKeys cache).filter (findFunction false (jsTrim q)) = []))
    (hloc : loc.latitude ≠ 0 ∨ loc.longitude ≠ 0)
    (hapi : api loc cfg.searchRadius = Except.error e) :
    findStops api table cache cfg (jsTrim q) loc false = PromiseOutcome.pending
    ∧ inlineQueryAnswer api table cache cfg fetch q loc = none := by
  have hfall : locationSearch api table cfg loc = PromiseOutcome.pending := by
    unfold locationSearch
    rw [hapi]
  have hfs : findStops api table cache cfg (jsTrim q) loc false = PromiseOutcome.pending := by
    rcases hq with hq0 | ⟨hq1, hnan, hfil⟩
    · have hlocflag : isLocationQueryFlag loc = true := by
        simp only [isLocationQueryFlag, Bool.or_eq_true, decide_eq_true_eq]
        tauto
      have h1 : isNaNQueryFlag (jsTrim q) = false := by simp [isNaNQueryFlag, hq0]
      have h2 : isEmptyQueryFlag (jsTrim q) = true := by simp [isEmptyQueryFlag, hq0]
      simp [findStops, h1, h2, hlocflag, hfall]
    · have h1 : isNaNQueryFlag (jsTrim q) = false := by simp [isNaNQueryFlag, hnan]
      have h2 : isEmptyQueryFlag (jsTrim q) = false := by simp [isEmptyQueryFlag, h1, hq1]
      simp [findStops, h1, h2, hfil, hfall]
  exact ⟨hfs, by simp [inlineQueryAnswer, hfs]⟩

/-- Witness for C9_location_failure_no_answer at the concrete failing API. -/
theorem C9_witness :
    ((jsTrim "").length = 0)
    ∧ inlineQueryAnswer apiErr [] [] settings fetchErr "" locMadrid = none :=
  ⟨by decide,
    (C9_location_failure_no_answer apiErr [] [] settings fetchErr "" locMadrid "ECONNRESET"
      (Or.inl (by decide)) (Or.inl (by decide)) rfl).2⟩

-- CLAIM C10 -------------------------------------------------------------------

/-- C10 (confirmed): a non empty numeric query matching zero cached stop ids
with no location (both coordinates exactly 0) does not raise the ambiguous
empty request error: findStops falls through to the location fallback invoked
at the all zero location, so the outcome is whatever the stops near location
call produces for (0, 0). -/
theorem C10_zero_location_fallthrough (api : LocationApi) (table : List XmlLine)
    (cache : StopCache) (cfg : Settings) (q : String) (exact : Bool)
    (hq : q.length ≠ 0) (hnan : jsIsNaN q = false)
    (hfil : (objectKeys cache).filter (findFunction exact q) = []) :
    findStops api table cache cfg q emptyLocation exact
      = locationSearch api table cfg emptyLocation
    ∧ ∀ msg, findStops api table cache cfg q emptyLocation exact
        ≠ PromiseOutcome.rejected msg := by
  have h1 : isNaNQueryFlag q = false := by simp [isNaNQueryFlag, hnan]
  have h2 : isEmptyQueryFlag q = false := by simp [isEmptyQueryFlag, h1, hq]
  have heq : findStops api table cache cfg q emptyLocation exact
      = locationSearch api table cfg emptyLocation := by
    simp [findStops, h1, h2, hfil]
  refine ⟨heq, ?_⟩
  intro msg hcon
  rw [heq] at hcon
  exact locationSearch_ne_rejected api table cfg emptyLocation msg hcon

/-- Witness for C10_zero_location_fallthrough: numeric query 7777 with an
empty cache and the zero location falls through to the location search. -/
theorem C10_witness :
    ("7777".length ≠ 0)
    ∧ jsIsNaN "7777" = false
    ∧ findStops apiEmpty [] [] settings "7777" emptyLocation false
        = locationSearch apiEmpty [] settings emptyLocation :=
  ⟨by decide, by decide,
    (C10_zero_location_fallthrough apiEmpty [] [] settings "7777" false
      (by decide) (by decide) (by decide)).1⟩


end EmtBus
